import Mathlib

/-!
Verification development for the bisslog-core tracing contracts
(ServiceTracer, TransactionalTracer and its argument-resolution helpers)
and the exception taxonomies (DomainException family and the
ExternalInteractionError family).

The tracer-side definitions are shallow embeddings of
src/bisslog_core/ports/tracing/transactional_tracer.py and
src/bisslog/ports/tracing/service_tracer.py.  Optional string arguments
become Option String; Python truthiness of an optional string is made
explicit; the dictionary returned by the resolution helpers becomes the
ReArgs structure whose fields are Option String, so that the claim that
the values are never None is a real statement and not a typing artifact.
Calls to the transaction-context singleton are threaded in state-passing
style so that frame properties (the context is never mutated) are
expressible.
-/

namespace Bisslog

/-- Modelled from the spec: the transaction-context collaborator (class
TransactionManager and its singleton transaction_manager are not among the
traced sources; only their use sites are).  The spec says it exposes
get_main_transaction_id() -> string and get_transaction_id() -> string,
identifiers of the outermost and the currently active transaction, so its
observable state is that pair of strings. -/
structure TransactionManager where
  main_transaction_id : String
  current_transaction_id : String
deriving Repr, DecidableEq

/-- Modelled from the spec: get_main_transaction_id returns the main id.
The call is given in state-passing style; per the spec the context is
queried, never mutated, so the state component is returned unchanged. -/
def TransactionManager.get_main_transaction_id (tm : TransactionManager) :
    String × TransactionManager :=
  (tm.main_transaction_id, tm)

/-- Modelled from the spec: get_transaction_id returns the current id, in
state-passing style, leaving the context state unchanged. -/
def TransactionManager.get_transaction_id (tm : TransactionManager) :
    String × TransactionManager :=
  (tm.current_transaction_id, tm)

/-- A TransactionalTracer as far as its concrete behavior is concerned: the
only state it can reach is the transaction-manager singleton returned by
the _transaction_manager property. -/
structure TransactionalTracer where
  manager : TransactionManager
deriving Repr, DecidableEq

/-- Embedding of the _transaction_manager property: provides access to the
transaction manager instance. -/
def TransactionalTracer.transaction_manager_prop (self : TransactionalTracer) :
    TransactionManager :=
  self.manager

/-- Python truthiness of an Optional[str] value: None and the empty string
are falsy, every other string is truthy. -/
def pyTruthyOptStr : Option String → Bool
  | none => false
  | some s => !s.isEmpty

/-- The dictionary returned by _re_args_with_main / _re_args_with_current:
keys transaction_id and checkpoint_id.  The values are kept as
Option String so that absence of None in the result is a provable fact. -/
structure ReArgs where
  transaction_id : Option String
  checkpoint_id : Option String
deriving Repr, DecidableEq

/-- Embedding of TransactionalTracer._re_args_with_main: if transaction_id
is None it is replaced by the transaction manager main transaction id; if
checkpoint_id is None or falsy it is replaced by the empty string; the two
values are returned as a dictionary.  The manager state after the getter
call is threaded into the returned tracer. -/
def TransactionalTracer.re_args_with_main (self : TransactionalTracer)
    (transaction_id : Option String) (checkpoint_id : Option String) :
    ReArgs × TransactionalTracer :=
  let step :=
    match transaction_id with
    | none =>
        let p := self.transaction_manager_prop.get_main_transaction_id
        (some p.1, { self with manager := p.2 })
    | some t => (some t, self)
  let checkpoint_id :=
    if checkpoint_id = none ∨ pyTruthyOptStr checkpoint_id = false then some ""
    else checkpoint_id
  ({ transaction_id := step.1, checkpoint_id := checkpoint_id }, step.2)

/-- Embedding of TransactionalTracer._re_args_with_current: same as
re_args_with_main except that a missing transaction_id is replaced by the
transaction manager current transaction id. -/
def TransactionalTracer.re_args_with_current (self : TransactionalTracer)
    (transaction_id : Option String) (checkpoint_id : Option String) :
    ReArgs × TransactionalTracer :=
  let step :=
    match transaction_id with
    | none =>
        let p := self.transaction_manager_prop.get_transaction_id
        (some p.1, { self with manager := p.2 })
    | some t => (some t, self)
  let checkpoint_id :=
    if checkpoint_id = none ∨ pyTruthyOptStr checkpoint_id = false then some ""
    else checkpoint_id
  ({ transaction_id := step.1, checkpoint_id := checkpoint_id }, step.2)

/-- Specification-side description of checkpoint normalization, used only to
state claims about the helpers: None and the empty string become the empty
string, anything else is kept. -/
def normCheckpoint (checkpoint_id : Option String) : Option String :=
  if checkpoint_id = none ∨ pyTruthyOptStr checkpoint_id = false then some ""
  else checkpoint_id

/-- The exception raised by an unoverridden abstract tracer method. -/
structure NotImplementedErrorExc where
  msg : String
deriving Repr, DecidableEq

/-- A ServiceTracer has no state of its own; the structure only serves as
the receiver of the abstract method bodies. -/
structure ServiceTracer where
  unit : Unit
deriving Repr, DecidableEq

/-- Embedding of the body of ServiceTracer.info: raise NotImplementedError. -/
def ServiceTracer.info {α β : Type} (_self : ServiceTracer) (_payload : α)
    (_checkpoint_id : Option String) (_extra : Option β) :
    Except NotImplementedErrorExc Unit :=
  Except.error ⟨"TracingManager must implement method info"⟩

/-- Embedding of the body of ServiceTracer.debug: raise NotImplementedError. -/
def ServiceTracer.debug {α β : Type} (_self : ServiceTracer) (_payload : α)
    (_checkpoint_id : Option String) (_extra : Option β) :
    Except NotImplementedErrorExc Unit :=
  Except.error ⟨"TracingManager must implement method debug"⟩

/-- Embedding of the body of ServiceTracer.warning: raise NotImplementedError. -/
def ServiceTracer.warning {α β : Type} (_self : ServiceTracer) (_payload : α)
    (_checkpoint_id : Option String) (_extra : Option β) :
    Except NotImplementedErrorExc Unit :=
  Except.error ⟨"TracingManager must implement method warning"⟩

/-- Embedding of the body of ServiceTracer.error: raise NotImplementedError. -/
def ServiceTracer.error {α β : Type} (_self : ServiceTracer) (_payload : α)
    (_checkpoint_id : Option String) (_extra : Option β) :
    Except NotImplementedErrorExc Unit :=
  Except.error ⟨"TracingManager must implement method error"⟩

/-- Embedding of the body of ServiceTracer.critical: raise NotImplementedError. -/
def ServiceTracer.critical {α β : Type} (_self : ServiceTracer) (_payload : α)
    (_checkpoint_id : Option String) (_extra : Option β) :
    Except NotImplementedErrorExc Unit :=
  Except.error ⟨"TracingManager must implement method critical"⟩

/-- Embedding of the body of TransactionalTracer.info: raise
NotImplementedError. -/
def TransactionalTracer.info {α β : Type} (_self : TransactionalTracer)
    (_payload : α) (_transaction_id : Option String)
    (_checkpoint_id : Option String) (_extra : Option β) :
    Except NotImplementedErrorExc Unit :=
  Except.error ⟨"TracingManager must implement method info"⟩

/-- Embedding of the body of TransactionalTracer.debug: raise
NotImplementedError. -/
def TransactionalTracer.debug {α β : Type} (_self : TransactionalTracer)
    (_payload : α) (_transaction_id : Option String)
    (_checkpoint_id : Option String) (_extra : Option β) :
    Except NotImplementedErrorExc Unit :=
  Except.error ⟨"TracingManager must implement method debug"⟩

/-- Embedding of the body of TransactionalTracer.warning: raise
NotImplementedError. -/
def TransactionalTracer.warning {α β : Type} (_self : TransactionalTracer)
    (_payload : α) (_transaction_id : Option String)
    (_checkpoint_id : Option String) (_extra : Option β) :
    Except NotImplementedErrorExc Unit :=
  Except.error ⟨"TracingManager must implement method warning"⟩

/-- Embedding of the body of TransactionalTracer.error: raise
NotImplementedError. -/
def TransactionalTracer.error {α β : Type} (_self : TransactionalTracer)
    (_payload : α) (_transaction_id : Option String)
    (_checkpoint_id : Option String) (_extra : Option β) :
    Except NotImplementedErrorExc Unit :=
  Except.error ⟨"TracingManager must implement method error"⟩

/-- Embedding of the body of TransactionalTracer.critical: raise
NotImplementedError. -/
def TransactionalTracer.critical {α β : Type} (_self : TransactionalTracer)
    (_payload : α) (_transaction_id : Option String)
    (_checkpoint_id : Option String) (_extra : Option β) :
    Except NotImplementedErrorExc Unit :=
  Except.error ⟨"TracingManager must implement method critical"⟩

/-- Embedding of the body of TransactionalTracer.func_error: raise
NotImplementedError. -/
def TransactionalTracer.func_error {α β : Type} (_self : TransactionalTracer)
    (_payload : α) (_transaction_id : Option String)
    (_checkpoint_id : Option String) (_extra : Option β) :
    Except NotImplementedErrorExc Unit :=
  Except.error ⟨"TracingManager must implement method func_error"⟩

/-- Embedding of the body of TransactionalTracer.tech_error: raise
NotImplementedError. -/
def TransactionalTracer.tech_error {α β γ : Type} (_self : TransactionalTracer)
    (_payload : α) (_transaction_id : Option String)
    (_checkpoint_id : Option String) (_error : Option γ) (_extra : Option β) :
    Except NotImplementedErrorExc Unit :=
  Except.error ⟨"TracingManager must implement method tech_error"⟩

/-- Embedding of the body of TransactionalTracer.report_start_external:
raise NotImplementedError. -/
def TransactionalTracer.report_start_external {α β : Type}
    (_self : TransactionalTracer) (_payload : α)
    (_transaction_id : Option String) (_checkpoint_id : Option String)
    (_extra : Option β) : Except NotImplementedErrorExc Unit :=
  Except.error ⟨"TracingManager must implement method report_start_external"⟩

/-- Embedding of the body of TransactionalTracer.report_end_external:
raise NotImplementedError. -/
def TransactionalTracer.report_end_external {α β : Type}
    (_self : TransactionalTracer) (_payload : α)
    (_transaction_id : Option String) (_checkpoint_id : Option String)
    (_extra : Option β) : Except NotImplementedErrorExc Unit :=
  Except.error ⟨"TracingManager must implement method report_end_external"⟩

/-- Modelled from the spec: the exception classes of the repository (the
modules bisslog.exceptions.domain_exception and
bisslog.exceptions.external_interactions_errors are not among the traced
sources; only their unit tests are).  One constructor per class named in
the spec, plus the builtin Exception root they ultimately derive from. -/
inductive PyClass
  | exceptionCls
  | domainException
  | notFound
  | notAllowed
  | externalInteractionError
  | warningExtException
  | errorExtException
  | interfaceExtException
  | configurationExtException
  | externalDependencyErrorExtException
  | dataErrorExtException
  | operationalErrorExtException
  | integrityErrorExtException
  | programmingErrorExtException
  | notSupportedErrorExtException
  | invalidDataExtException
  | connectionExtException
  | timeoutExtException
  | authenticationExtException
  | authorizationExtException
  | deliveryExtException
  | internalErrorExtException
  | processingExtException
deriving Repr, DecidableEq

/-- Modelled from the spec: the single-inheritance parent of each class.
DomainException subtypes the generic exception type and has NotFound and
NotAllowed below it; ExternalInteractionError roots a tree branching into
WarningExtException and ErrorExtException, which in turn branches into
InterfaceExtException (with ConfigurationExtException),
ExternalDependencyErrorExtException (with data / operational / integrity /
programming / not-supported / invalid-data children, operational errors
further subdivided) and InternalErrorExtException (with
ProcessingExtException). -/
def PyClass.parent : PyClass → Option PyClass
  | .exceptionCls => none
  | .domainException => some .exceptionCls
  | .notFound => some .domainException
  | .notAllowed => some .domainException
  | .externalInteractionError => some .exceptionCls
  | .warningExtException => some .externalInteractionError
  | .errorExtException => some .externalInteractionError
  | .interfaceExtException => some .errorExtException
  | .configurationExtException => some .interfaceExtException
  | .externalDependencyErrorExtException => some .errorExtException
  | .dataErrorExtException => some .externalDependencyErrorExtException
  | .operationalErrorExtException => some .externalDependencyErrorExtException
  | .integrityErrorExtException => some .externalDependencyErrorExtException
  | .programmingErrorExtException => some .externalDependencyErrorExtException
  | .notSupportedErrorExtException => some .externalDependencyErrorExtException
  | .invalidDataExtException => some .externalDependencyErrorExtException
  | .connectionExtException => some .operationalErrorExtException
  | .timeoutExtException => some .operationalErrorExtException
  | .authenticationExtException => some .operationalErrorExtException
  | .authorizationExtException => some .operationalErrorExtException
  | .deliveryExtException => some .operationalErrorExtException
  | .internalErrorExtException => some .errorExtException
  | .processingExtException => some .internalErrorExtException

/-- The chain of a class and its ancestors, computed with explicit fuel
(the tree has depth at most six, so fuel ten is more than enough). -/
def PyClass.ancestorChain : Nat → PyClass → List PyClass
  | 0, _ => []
  | fuel + 1, c =>
      c :: (match c.parent with
            | none => []
            | some p => PyClass.ancestorChain fuel p)

/-- Membership test behind issubclass: a class is a subclass of another
exactly when the other appears on its ancestor chain (reflexively). -/
def issubclass (c d : PyClass) : Bool :=
  d ∈ PyClass.ancestorChain 10 c

/-- Modelled from the spec: a DomainException object carries its concrete
class together with the immutable keyname / message pair given at
construction. -/
structure DomainExceptionInst where
  cls : PyClass
  keyname : String
  message : String
deriving Repr, DecidableEq

/-- Modelled from the spec: DomainException(keyname, message) always
constructs, exposing both fields. -/
def DomainException.init (keyname message : String) : DomainExceptionInst :=
  { cls := .domainException, keyname := keyname, message := message }

/-- Modelled from the spec: NotFound(keyname, message). -/
def NotFound.init (keyname message : String) : DomainExceptionInst :=
  { cls := .notFound, keyname := keyname, message := message }

/-- Modelled from the spec: NotAllowed(keyname, message). -/
def NotAllowed.init (keyname message : String) : DomainExceptionInst :=
  { cls := .notAllowed, keyname := keyname, message := message }

/-- Raising a domain exception: the computation ends with that object as
its error. -/
def raiseDomain (e : DomainExceptionInst) : Except DomainExceptionInst Unit :=
  Except.error e

/-- Whether an except-clause for the handler class catches the outcome of a
computation: it does exactly when the computation ended in an error whose
class is a subclass of the handler class. -/
def catchesDomain (handler : PyClass) :
    Except DomainExceptionInst Unit → Bool
  | Except.error e => issubclass e.cls handler
  | Except.ok _ => false

/-- Modelled from the spec: an ExternalInteractionError-family object adds
no field beyond a human-readable message; the classification is the
concrete class itself. -/
structure ExtErrorInst where
  cls : PyClass
  message : String
deriving Repr, DecidableEq

/-- Raising an external-interaction exception. -/
def raiseExt (e : ExtErrorInst) : Except ExtErrorInst Unit :=
  Except.error e

/-- Whether an except-clause for the handler class catches the outcome of a
computation raising an external-interaction exception. -/
def catchesExt (handler : PyClass) : Except ExtErrorInst Unit → Bool
  | Except.error e => issubclass e.cls handler
  | Except.ok _ => false

/-- C1: with transaction_id=None and checkpoint_id=None, _re_args_with_main
returns the dictionary holding the manager main transaction id and an empty
checkpoint, _re_args_with_current returns the current transaction id and an
empty checkpoint, and whenever the two manager ids differ the two results
differ. -/
theorem re_args_none_resolves_main_vs_current (self : TransactionalTracer) :
    (self.re_args_with_main none none).1 =
      { transaction_id := some self.transaction_manager_prop.get_main_transaction_id.1,
        checkpoint_id := some "" } ∧
    (self.re_args_with_current none none).1 =
      { transaction_id := some self.transaction_manager_prop.get_transaction_id.1,
        checkpoint_id := some "" } ∧
    (self.transaction_manager_prop.get_main_transaction_id.1 ≠
        self.transaction_manager_prop.get_transaction_id.1 →
      (self.re_args_with_main none none).1 ≠ (self.re_args_with_current none none).1) := by
  refine ⟨rfl, rfl, fun hne heq => hne ?_⟩
  have h := congrArg ReArgs.transaction_id heq
  simpa [TransactionalTracer.re_args_with_main, TransactionalTracer.re_args_with_current,
    TransactionManager.get_main_transaction_id, TransactionManager.get_transaction_id,
    TransactionalTracer.transaction_manager_prop] using h

/-- Witness for C1 at a concrete tracer whose main and current transaction
ids differ. -/
theorem re_args_none_resolves_main_vs_current_witness :
    (TransactionalTracer.re_args_with_main ⟨⟨"m", "c"⟩⟩ none none).1 ≠
      (TransactionalTracer.re_args_with_current ⟨⟨"m", "c"⟩⟩ none none).1 :=
  (re_args_none_resolves_main_vs_current ⟨⟨"m", "c"⟩⟩).2.2 (by decide)

/-- C2: for every optional transaction_id / checkpoint_id and every manager
state, both values of the dictionary returned by _re_args_with_main and by
_re_args_with_current are present strings, never None. -/
theorem re_args_values_never_none (self : TransactionalTracer)
    (transaction_id checkpoint_id : Option String) :
    (self.re_args_with_main transaction_id checkpoint_id).1.transaction_id ≠ none ∧
    (self.re_args_with_main transaction_id checkpoint_id).1.checkpoint_id ≠ none ∧
    (self.re_args_with_current transaction_id checkpoint_id).1.transaction_id ≠ none ∧
    (self.re_args_with_current transaction_id checkpoint_id).1.checkpoint_id ≠ none := by
  cases transaction_id <;>
    simp only [TransactionalTracer.re_args_with_main,
      TransactionalTracer.re_args_with_current] <;>
    refine ⟨by simp, ?_, by simp, ?_⟩ <;>
    split <;> simp_all

/-- C3: every abstract operation body of ServiceTracer (info, debug,
warning, error, critical) and of TransactionalTracer (the same five plus
func_error, tech_error, report_start_external, report_end_external) raises
NotImplementedError for all arguments instead of returning normally. -/
theorem abstract_tracer_methods_raise {α β γ : Type} (st : ServiceTracer)
    (tt : TransactionalTracer) (p : α) (tid cid : Option String)
    (err : Option γ) (ex : Option β) :
    st.info p cid ex =
      Except.error ⟨"TracingManager must implement method info"⟩ ∧
    st.debug p cid ex =
      Except.error ⟨"TracingManager must implement method debug"⟩ ∧
    st.warning p cid ex =
      Except.error ⟨"TracingManager must implement method warning"⟩ ∧
    st.error p cid ex =
      Except.error ⟨"TracingManager must implement method error"⟩ ∧
    st.critical p cid ex =
      Except.error ⟨"TracingManager must implement method critical"⟩ ∧
    tt.info p tid cid ex =
      Except.error ⟨"TracingManager must implement method info"⟩ ∧
    tt.debug p tid cid ex =
      Except.error ⟨"TracingManager must implement method debug"⟩ ∧
    tt.warning p tid cid ex =
      Except.error ⟨"TracingManager must implement method warning"⟩ ∧
    tt.error p tid cid ex =
      Except.error ⟨"TracingManager must implement method error"⟩ ∧
    tt.critical p tid cid ex =
      Except.error ⟨"TracingManager must implement method critical"⟩ ∧
    tt.func_error p tid cid ex =
      Except.error ⟨"TracingManager must implement method func_error"⟩ ∧
    tt.tech_error p tid cid err ex =
      Except.error ⟨"TracingManager must implement method tech_error"⟩ ∧
    tt.report_start_external p tid cid ex =
      Except.error ⟨"TracingManager must implement method report_start_external"⟩ ∧
    tt.report_end_external p tid cid ex =
      Except.error ⟨"TracingManager must implement method report_end_external"⟩ :=
  ⟨rfl, rfl, rfl, rfl, rfl, rfl, rfl, rfl, rfl, rfl, rfl, rfl, rfl, rfl⟩

/-- C4: passing checkpoint_id equal to the empty string gives exactly the
same result as passing checkpoint_id=None, for both helpers and for every
transaction_id, and that checkpoint value is the empty string -
normalization of an already-normalized checkpoint is the identity. -/
theorem checkpoint_normalization_idempotent (self : TransactionalTracer)
    (transaction_id : Option String) :
    self.re_args_with_main transaction_id (some "") =
      self.re_args_with_main transaction_id none ∧
    (self.re_args_with_main transaction_id (some "")).1.checkpoint_id = some "" ∧
    self.re_args_with_current transaction_id (some "") =
      self.re_args_with_current transaction_id none ∧
    (self.re_args_with_current transaction_id (some "")).1.checkpoint_id = some "" := by
  cases transaction_id <;> exact ⟨rfl, rfl, rfl, rfl⟩

/-- C5: neither helper mutates the transaction context - for every
arguments and every starting state, the tracer (hence the manager) state
after the call is the state before the call. -/
theorem re_args_helpers_preserve_state (self : TransactionalTracer)
    (transaction_id checkpoint_id : Option String) :
    (self.re_args_with_main transaction_id checkpoint_id).2 = self ∧
    (self.re_args_with_current transaction_id checkpoint_id).2 = self := by
  cases transaction_id <;>
    simp [TransactionalTracer.re_args_with_main,
      TransactionalTracer.re_args_with_current,
      TransactionManager.get_main_transaction_id,
      TransactionManager.get_transaction_id,
      TransactionalTracer.transaction_manager_prop]

/-- C6: an explicit empty-string transaction_id is kept as the empty string
by both helpers, without consulting the manager (the result is the same for
any two manager states), whereas checkpoint_id is normalized to the empty
string both for None and for the empty string. -/
theorem empty_transaction_id_not_treated_missing (checkpoint_id : Option String)
    (tm1 tm2 : TransactionManager) :
    ((TransactionalTracer.mk tm1).re_args_with_main (some "") checkpoint_id).1.transaction_id
      = some "" ∧
    ((TransactionalTracer.mk tm1).re_args_with_current (some "") checkpoint_id).1.transaction_id
      = some "" ∧
    ((TransactionalTracer.mk tm1).re_args_with_main (some "") checkpoint_id).1 =
      ((TransactionalTracer.mk tm2).re_args_with_main (some "") checkpoint_id).1 ∧
    ((TransactionalTracer.mk tm1).re_args_with_current (some "") checkpoint_id).1 =
      ((TransactionalTracer.mk tm2).re_args_with_current (some "") checkpoint_id).1 ∧
    ((TransactionalTracer.mk tm1).re_args_with_main (some "") (some "")).1.checkpoint_id
      = some "" ∧
    ((TransactionalTracer.mk tm1).re_args_with_main (some "") none).1.checkpoint_id
      = some "" :=
  ⟨rfl, rfl, rfl, rfl, rfl, rfl⟩

/-- C7: when a non-None transaction_id is supplied, _re_args_with_main and
_re_args_with_current coincide and the manager state does not flow into the
result: for any two states both return the dictionary holding the given id
and the normalized checkpoint. -/
theorem explicit_transaction_id_noninterference (t : String)
    (checkpoint_id : Option String) (tm1 tm2 : TransactionManager) :
    ((TransactionalTracer.mk tm1).re_args_with_main (some t) checkpoint_id).1 =
      { transaction_id := some t, checkpoint_id := normCheckpoint checkpoint_id } ∧
    ((TransactionalTracer.mk tm2).re_args_with_main (some t) checkpoint_id).1 =
      { transaction_id := some t, checkpoint_id := normCheckpoint checkpoint_id } ∧
    ((TransactionalTracer.mk tm1).re_args_with_current (some t) checkpoint_id).1 =
      { transaction_id := some t, checkpoint_id := normCheckpoint checkpoint_id } ∧
    ((TransactionalTracer.mk tm2).re_args_with_current (some t) checkpoint_id).1 =
      { transaction_id := some t, checkpoint_id := normCheckpoint checkpoint_id } :=
  ⟨rfl, rfl, rfl, rfl⟩

/-- C8: construction of DomainException, NotFound and NotAllowed always
succeeds and exposes exactly the given keyname and message. -/
theorem domain_exception_construction (keyname message : String) :
    (DomainException.init keyname message).keyname = keyname ∧
    (DomainException.init keyname message).message = message ∧
    (NotFound.init keyname message).keyname = keyname ∧
    (NotFound.init keyname message).message = message ∧
    (NotAllowed.init keyname message).keyname = keyname ∧
    (NotAllowed.init keyname message).message = message :=
  ⟨rfl, rfl, rfl, rfl, rfl, rfl⟩

/-- C9: NotFound and NotAllowed are subclasses of DomainException, itself a
subclass of the generic exception type, and a raised NotFound or NotAllowed
is caught by an except-clause for DomainException, for every keyname and
message. -/
theorem domain_exception_hierarchy_catching (k m : String) :
    issubclass .notFound .domainException = true ∧
    issubclass .notAllowed .domainException = true ∧
    issubclass .domainException .exceptionCls = true ∧
    catchesDomain .domainException (raiseDomain (NotFound.init k m)) = true ∧
    catchesDomain .domainException (raiseDomain (NotAllowed.init k m)) = true :=
  ⟨by decide, by decide, by decide, rfl, rfl⟩

/-- C10: in the ExternalInteractionError single-inheritance tree, a raised
exception is caught by a handler for any of its ancestor classes; in
particular WarningExtException is caught as ExternalInteractionError,
ConnectionExtException as OperationalErrorExtException,
ExternalDependencyErrorExtException as ErrorExtException and
ConfigurationExtException as InterfaceExtException, for every message. -/
theorem ext_error_hierarchy_catching (c h : PyClass) (m : String) :
    (issubclass c h = true →
      catchesExt h (raiseExt { cls := c, message := m }) = true) ∧
    catchesExt .externalInteractionError
      (raiseExt { cls := .warningExtException, message := m }) = true ∧
    catchesExt .operationalErrorExtException
      (raiseExt { cls := .connectionExtException, message := m }) = true ∧
    catchesExt .errorExtException
      (raiseExt { cls := .externalDependencyErrorExtException, message := m }) = true ∧
    catchesExt .interfaceExtException
      (raiseExt { cls := .configurationExtException, message := m }) = true :=
  ⟨fun hsub => hsub, rfl, rfl, rfl, rfl⟩

/-- Witness for C10: a concrete raised TimeoutExtException is caught by a
handler for its ancestor ExternalInteractionError. -/
theorem ext_error_hierarchy_catching_witness :
    catchesExt .externalInteractionError
      (raiseExt { cls := .timeoutExtException, message := "boom" }) = true :=
  (ext_error_hierarchy_catching .timeoutExtException .externalInteractionError "boom").1
    (by decide)

end Bisslog
